import Mathlib

/-!
Verification of the weather-agent repository (src/agent/agent.py).

The file shallowly embeds the repository's own logic:
  - `get_weather` (agent.py lines 45-86): input validation, one HTTP GET to
    wttr.in, JSON decoding and field extraction, returning a Python dict
    with a "status" key;
  - `call_agent_async` (agent.py lines 104-124): the per-turn event-draining
    loop that stops at the first final event;
  - `_is_rate_limit_error` (agent.py lines 17-39): the heuristic rate-limit
    exception classifier.

External effects (the HTTP transport and `json.loads`) are passed in as an
explicit environment, and `get_weather` additionally returns the list of
HTTP requests it issued, so that claims about which requests are made can
be stated.  Python `None` is modelled by `Json.null` (for decoded data) or
`Option.none` (for optional attributes).  JSON numbers are modelled as
integers; the weather claims only involve string fields.
-/

/-- Python whitespace characters recognised by `str.strip()` (the ASCII
ones; exotic Unicode whitespace is not needed by any claim). -/
def isPySpace (c : Char) : Bool :=
  c = ' ' || c = '\t' || c = '\n' || c = '\r' || c = '\x0b' || c = '\x0c'

/-- Model of Python `str.strip()`: drop leading and trailing whitespace. -/
def pyStrip (s : String) : String :=
  String.mk (((s.toList.dropWhile isPySpace).reverse.dropWhile isPySpace).reverse)

/-- Decidable substring test on lists (model of Python `pat in s`). -/
def listContains (pat : List Char) : List Char → Bool
  | [] => pat.isEmpty
  | c :: cs => pat.isPrefixOf (c :: cs) || listContains pat cs

/-- Model of Python `pat in s` for strings. -/
def strContains (s pat : String) : Bool :=
  listContains pat.toList s.toList

/-- Upper-case hex digit, as produced by `urllib.parse.quote`. -/
def hexDigit (d : Nat) : Char :=
  if d < 10 then Char.ofNat (48 + d) else Char.ofNat (55 + d)

/-- Bytes `urllib.parse.quote` leaves unescaped with the default
`safe='/'`: ASCII letters, digits, `_ . - ~` and `/`. -/
def isQuoteSafe (b : Nat) : Bool :=
  (65 ≤ b && b ≤ 90) || (97 ≤ b && b ≤ 122) || (48 ≤ b && b ≤ 57) ||
  b = 95 || b = 46 || b = 45 || b = 126 || b = 47

/-- Percent-encoding of one byte. -/
def percentByte (b : Nat) : String :=
  String.mk [Char.ofNat 37, hexDigit (b / 16), hexDigit (b % 16)]

/-- UTF-8 encoding of one character, as a list of byte values. -/
def utf8Bytes (c : Char) : List Nat :=
  let n := c.toNat
  if n < 0x80 then [n]
  else if n < 0x800 then [0xC0 + n / 0x40, 0x80 + n % 0x40]
  else if n < 0x10000 then
    [0xE0 + n / 0x1000, 0x80 + (n / 0x40) % 0x40, 0x80 + n % 0x40]
  else
    [0xF0 + n / 0x40000, 0x80 + (n / 0x1000) % 0x40, 0x80 + (n / 0x40) % 0x40,
     0x80 + n % 0x40]

/-- Model of `urllib.parse.quote(city)` (default `safe='/'`): encode the
string as UTF-8 and percent-escape every byte that is not in the safe set. -/
def pyQuote (s : String) : String :=
  String.join ((s.toList.flatMap utf8Bytes).map fun b =>
    if isQuoteSafe b then String.singleton (Char.ofNat b)
    else percentByte b)

/-- JSON values, as produced by `json.loads`.  JSON `null` doubles as the
Python `None` that `dict.get` returns for a missing key.  Numbers are
modelled as integers (no claim involves floating point). -/
inductive Json where
  | null
  | bool (b : Bool)
  | num (n : Int)
  | str (s : String)
  | arr (xs : List Json)
  | obj (fields : List (String × Json))

mutual

/-- Model of Python `repr()` on decoded JSON data (string escaping inside
nested containers is not modelled; no claim depends on it). -/
def pyRepr : Json → String
  | .null => "None"
  | .bool true => "True"
  | .bool false => "False"
  | .num n => toString n
  | .str s => "\x27" ++ s ++ "\x27"
  | .arr xs => "[" ++ pyReprList xs ++ "]"
  | .obj fs => "\x7b" ++ pyReprFields fs ++ "\x7d"

/-- Comma-separated `repr`s of list elements. -/
def pyReprList : List Json → String
  | [] => ""
  | [x] => pyRepr x
  | x :: y :: xs => pyRepr x ++ ", " ++ pyReprList (y :: xs)

/-- Comma-separated `repr`s of dict entries. -/
def pyReprFields : List (String × Json) → String
  | [] => ""
  | [(k, v)] => pyRepr (.str k) ++ ": " ++ pyRepr v
  | (k, v) :: f :: fs => pyRepr (.str k) ++ ": " ++ pyRepr v ++ ", " ++ pyReprFields (f :: fs)

end

/-- Model of Python `str()` on decoded JSON data, as used by f-string
interpolation: identity on strings, `None`/`True`/`False` for the
constants, decimal for numbers, `repr`-style for containers. -/
def pyToStr : Json → String
  | .null => "None"
  | .bool true => "True"
  | .bool false => "False"
  | .num n => toString n
  | .str s => s
  | .arr xs => "[" ++ pyReprList xs ++ "]"
  | .obj fs => "\x7b" ++ pyReprFields fs ++ "\x7d"

/-- Model of Python `v.get(key, default)`: raises `AttributeError` (as an
`Except.error` message) unless `v` is a dict; otherwise returns the value
of `key`, or `default` when the key is missing (`json.loads` gives dicts
unique keys). -/
def pyGet (v : Json) (key : String) (default : Json) : Except String Json :=
  match v with
  | .obj fs =>
      match fs.find? (fun p => p.1 = key) with
      | some p => .ok p.2
      | none => .ok default
  | _ => .error ("AttributeError: object has no attribute " ++ "\x27" ++ "get" ++ "\x27")

/-- Model of Python `v[0]`: first element of a list or string, otherwise
the exception Python raises (IndexError / KeyError / TypeError), caught by
the caller as an `Except.error` message. -/
def pyIndexZero (v : Json) : Except String Json :=
  match v with
  | .arr [] => .error "IndexError: list index out of range"
  | .arr (x :: _) => .ok x
  | .str s =>
      if s = "" then .error "IndexError: string index out of range"
      else .ok (.str (String.singleton s.front))
  | .obj _ => .error "KeyError: 0"
  | _ => .error "TypeError: object is not subscriptable"


/-- A value stored in the Python dict that `get_weather` returns: either a
string or the raw decoded JSON data. -/
inductive PyVal where
  | str (s : String)
  | jsonVal (j : Json)

/-- The Python dict returned by `get_weather`, as an association list. -/
def WeatherDict : Type := List (String × PyVal)

/-- Key lookup in the returned dict. -/
def dictGet (d : WeatherDict) (k : String) : Option PyVal :=
  (List.find? (fun p => p.1 = k) d).map (fun p => p.2)

/-- `{"status": "error", "error_message": m}` (agent.py lines 56, 66, 70, 86). -/
def errDict (m : String) : WeatherDict :=
  [("status", .str "error"), ("error_message", .str m)]

/-- `{"status": "success", "report": r, "data": d}` (agent.py line 84). -/
def successDict (r : String) (d : Json) : WeatherDict :=
  [("status", .str "success"), ("report", .str r), ("data", .jsonVal d)]

/-- Outcome of `urllib.request.urlopen(url, timeout=10)` followed by
`response.read().decode("utf-8")`: either some exception was raised
(transport error, timeout, undecodable body), or a response with an
optional `status` attribute (`getattr(response, "status", None)`) and a
decoded body string. -/
inductive FetchOutcome where
  | raiseExc (e : String)
  | ok (status : Option Nat) (body : String)

/-- A single HTTP request as issued by `get_weather`: the URL and the
timeout argument. -/
structure HttpRequest where
  url : String
  timeout : Nat
deriving DecidableEq

/-- The external world `get_weather` interacts with: the HTTP transport
(a function of the URL and timeout) and `json.loads` (an exception is an
`Except.error` carrying the exception text). -/
structure Env where
  fetch : String → Nat → FetchOutcome
  jsonLoads : String → Except String Json

/-- The URL built at agent.py lines 59-60:
`f"https://wttr.in/{encoded_city}?format=j1"`. -/
def wttrUrl (city : String) : String :=
  "https://wttr.in/" ++ pyQuote city ++ "?format=j1"

/-- The field extraction and report composition of agent.py lines 74-82,
inside the `try` of lines 73-86.  Returns the report string, or the text
of the first exception raised.  Lookup and indexing order follows the
source exactly: `current_condition`, `[0]`, `temp_C`, `weatherDesc`,
`[0]`, `value`, `humidity`, `feelslike_C`. -/
def extractReport (city : String) (data : Json) : Except String String := do
  let cc ← pyGet data "current_condition" (.arr [])
  let current ← pyIndexZero cc
  let temp_c ← pyGet current "temp_C" .null
  let wd ← pyGet current "weatherDesc" (.arr [.obj []])
  let wd0 ← pyIndexZero wd
  let desc ← pyGet wd0 "value" .null
  let humidity ← pyGet current "humidity" .null
  let feels_like_c ← pyGet current "feelslike_C" .null
  pure ("Weather in " ++ city ++ " is " ++ pyToStr desc ++ ", temperature " ++
    pyToStr temp_c ++ "°c (feels like " ++ pyToStr feels_like_c ++ "°c), humidity " ++
    pyToStr humidity ++ "%.")

/-- agent.py lines 68-86 applied to the decoded body once the status check
has passed: `json.loads` (still inside the fetch `try`, so its failure
yields the "Error fetching" message), then extraction (its failure yields
the "Error parsing" message), then the success dict. -/
def handleBody (env : Env) (city : String) (body : String) : WeatherDict :=
  match env.jsonLoads body with
  | .error e => errDict ("Error fetching weather data: " ++ e ++ ".")
  | .ok data =>
      match extractReport city data with
      | .error e => errDict ("Error parsing weather data: " ++ e ++ ".")
      | .ok report => successDict report data

/-- `get_weather` (agent.py lines 45-86).  Alongside the returned dict it
records the list of HTTP requests issued (empty or a singleton), so that
claims about the absence or shape of the network call can be stated.
Control flow follows the source: blank-city check, `urlopen` (whose raised
exception short-circuits), the `status` attribute check, then body
decoding and extraction. -/
def get_weather (env : Env) (city : String) : WeatherDict × List HttpRequest :=
  if city = "" || pyStrip city = "" then
    (errDict "City must be non-empty string.", [])
  else
    match env.fetch (wttrUrl city) 10 with
    | .raiseExc e =>
        (errDict ("Error fetching weather data: " ++ e ++ "."), [⟨wttrUrl city, 10⟩])
    | .ok status body =>
        match status with
        | some s =>
            if s ≠ 200 then
              (errDict ("Error fetching weather data: " ++ toString s ++ "."), [⟨wttrUrl city, 10⟩])
            else (handleBody env city body, [⟨wttrUrl city, 10⟩])
        | none => (handleBody env city body, [⟨wttrUrl city, 10⟩])

/-- One part of an event's content; `text` is optional in the SDK type. -/
structure EventPart where
  text : Option String

/-- Event content: a list of parts. -/
structure EventContent where
  parts : List EventPart

/-- Event actions; `escalate` is an optional boolean in the SDK type. -/
structure EventActions where
  escalate : Option Bool

/-- A conversation event yielded by `runner.run_async`, with the four
attributes `call_agent_async` reads.  `is_final_response` models the
method's boolean result; `content`, `actions` and `error_message` may each
be Python `None` (here `Option.none`). -/
structure Event where
  is_final_response : Bool
  content : Option EventContent
  actions : Option EventActions
  error_message : Option String

/-- Python truthiness of `event.content and event.content.parts`
(agent.py line 118): content is not `None` and its parts list is
non-empty. -/
def eventHasContentParts (e : Event) : Bool :=
  match e.content with
  | some c => !c.parts.isEmpty
  | none => false

/-- `event.content.parts[0].text` (agent.py line 119); the part's `text`
may itself be Python `None`. -/
def firstPartText (e : Event) : Option String :=
  match e.content with
  | some c =>
      match c.parts with
      | p :: _ => p.text
      | [] => none
  | none => none

/-- Python truthiness of `event.actions and event.actions.escalate`
(agent.py line 120). -/
def eventEscalates (e : Event) : Bool :=
  match e.actions with
  | some a => a.escalate.getD false
  | none => false

/-- `event.error_message or 'No specific message.'` (agent.py line 121):
Python `or` falls through on `None` and on the empty string. -/
def escalationMessage (e : Event) : String :=
  match e.error_message with
  | some m => if m = "" then "No specific message." else m
  | none => "No specific message."

/-- The fixed placeholder initialising `final_response_text`
(agent.py line 111). -/
def noFinalResponseText : String := "Agent did not produce a final response."

/-- The value `final_response_text` holds after the branch at agent.py
lines 117-122 runs on a final event: the first content part's text when
content has parts (possibly Python `None`), else the escalation string,
else the untouched placeholder. -/
def finalEventText (e : Event) : Option String :=
  if eventHasContentParts e then firstPartText e
  else if eventEscalates e then
    some ("Agent escalated: " ++ escalationMessage e)
  else some noFinalResponseText

/-- The event-draining loop of `call_agent_async` (agent.py lines
111-124) over the sequence of events the runner would yield, modelled as
a list.  Returns the final `final_response_text` (an `Option String`,
since `parts[0].text` can be Python `None`) together with the number of
events consumed from the sequence: the loop `break`s at the first event
whose `is_final_response()` is true, so events after it are neither
requested nor observed. -/
def call_agent_async : List Event → Option String × Nat
  | [] => (some noFinalResponseText, 0)
  | e :: rest =>
      if e.is_final_response then (finalEventText e, 1)
      else
        let r := call_agent_async rest
        (r.1, r.2 + 1)

/-- A Python exception as seen by `_is_rate_limit_error`: its type's
`__name__`, its `str()` representation, and whether it is an instance of
`litellm.RateLimitError` (meaningful only when that module is
importable). -/
structure PyException where
  typeName : String
  strRepr : String
  litellmRateLimitInstance : Bool

/-- `_is_rate_limit_error` (agent.py lines 17-39): `None` is not a rate
limit error; otherwise look for "RateLimit" in the type name or message;
otherwise, only when `litellm` is importable and exposes
`RateLimitError`, fall back to the `isinstance` check. -/
def _is_rate_limit_error (litellmImportable : Bool) (exc : Option PyException) : Bool :=
  match exc with
  | none => false
  | some e =>
      if strContains e.typeName "RateLimit" || strContains e.strRepr "RateLimit" then
        true
      else if litellmImportable && e.litellmRateLimitInstance then
        true
      else false

/-! ## Helper lemmas -/

/-- Stripping the empty string returns the empty string. -/
theorem pyStrip_empty : pyStrip "" = "" := rfl

/-- For a non-blank city the guard at agent.py line 55 is false. -/
theorem nonblank_guard (city : String) (h : pyStrip city ≠ "") :
    (city = "" || pyStrip city = "") = false := by
  have hemp : ¬ city = "" := fun hc => h (by rw [hc]; exact pyStrip_empty)
  simp [hemp, h]

/-- Behaviour of `handleBody` when `json.loads` raises. -/
theorem handleBody_decode_err (env : Env) (city body e : String)
    (h : env.jsonLoads body = .error e) :
    handleBody env city body = errDict ("Error fetching weather data: " ++ e ++ ".") := by
  unfold handleBody
  rw [h]

/-- Behaviour of `handleBody` when decoding succeeds and extraction raises. -/
theorem handleBody_extract_err (env : Env) (city body e : String) (data : Json)
    (h : env.jsonLoads body = .ok data) (hx : extractReport city data = .error e) :
    handleBody env city body = errDict ("Error parsing weather data: " ++ e ++ ".") := by
  simp only [handleBody, h, hx]

/-- Behaviour of `handleBody` when decoding and extraction both succeed. -/
theorem handleBody_ok (env : Env) (city body r : String) (data : Json)
    (h : env.jsonLoads body = .ok data) (hx : extractReport city data = .ok r) :
    handleBody env city body = successDict r data := by
  simp only [handleBody, h, hx]

/-- `handleBody` returns the error dict or the success dict. -/
theorem handleBody_cases (env : Env) (city body : String) :
    (∃ m, handleBody env city body = errDict m) ∨
    (∃ r d, handleBody env city body = successDict r d) := by
  cases h : env.jsonLoads body with
  | error e => exact .inl ⟨_, handleBody_decode_err env city body e h⟩
  | ok data =>
      cases hx : extractReport city data with
      | error e => exact .inl ⟨_, handleBody_extract_err env city body e data h hx⟩
      | ok r => exact .inr ⟨r, data, handleBody_ok env city body r data h hx⟩

/-- Blank input: the guard at agent.py line 55 fires, no request issued. -/
theorem get_weather_blank (env : Env) (city : String) (h : pyStrip city = "") :
    get_weather env city = (errDict "City must be non-empty string.", []) := by
  unfold get_weather
  rw [h]
  simp

/-- Non-blank city, transport exception. -/
theorem get_weather_raise (env : Env) (city e : String) (h : pyStrip city ≠ "")
    (hf : env.fetch (wttrUrl city) 10 = .raiseExc e) :
    get_weather env city =
      (errDict ("Error fetching weather data: " ++ e ++ "."), [⟨wttrUrl city, 10⟩]) := by
  simp only [get_weather, nonblank_guard city h, hf]
  simp

/-- Non-blank city, response with a non-200 status attribute. -/
theorem get_weather_bad_status (env : Env) (city body : String) (s : Nat)
    (h : pyStrip city ≠ "") (hf : env.fetch (wttrUrl city) 10 = .ok (some s) body)
    (hs : s ≠ 200) :
    get_weather env city =
      (errDict ("Error fetching weather data: " ++ toString s ++ "."), [⟨wttrUrl city, 10⟩]) := by
  simp only [get_weather, nonblank_guard city h, hf]
  simp [hs]

/-- Non-blank city, response with status 200. -/
theorem get_weather_status_200 (env : Env) (city body : String)
    (h : pyStrip city ≠ "") (hf : env.fetch (wttrUrl city) 10 = .ok (some 200) body) :
    get_weather env city = (handleBody env city body, [⟨wttrUrl city, 10⟩]) := by
  simp only [get_weather, nonblank_guard city h, hf]
  simp

/-- Non-blank city, response with no status attribute. -/
theorem get_weather_status_none (env : Env) (city body : String)
    (h : pyStrip city ≠ "") (hf : env.fetch (wttrUrl city) 10 = .ok none body) :
    get_weather env city = (handleBody env city body, [⟨wttrUrl city, 10⟩]) := by
  simp only [get_weather, nonblank_guard city h, hf]
  simp

/-- Every return value of `get_weather` is the error dict or the success
dict. -/
theorem get_weather_cases (env : Env) (city : String) :
    (∃ m, (get_weather env city).1 = errDict m) ∨
    (∃ r d, (get_weather env city).1 = successDict r d) := by
  by_cases h : pyStrip city = ""
  · exact .inl ⟨_, by rw [get_weather_blank env city h]⟩
  · cases hf : env.fetch (wttrUrl city) 10 with
    | raiseExc e => exact .inl ⟨_, by rw [get_weather_raise env city e h hf]⟩
    | ok status body =>
        cases status with
        | none =>
            rw [get_weather_status_none env city body h hf]
            exact handleBody_cases env city body
        | some s =>
            by_cases hs : s = 200
            · subst hs
              rw [get_weather_status_200 env city body h hf]
              exact handleBody_cases env city body
            · exact .inl ⟨_, by rw [get_weather_bad_status env city body s h hf hs]⟩

/-- On a non-blank city exactly one request is issued: the templated URL
with the percent-encoded city and timeout 10. -/
theorem get_weather_requests (env : Env) (city : String) (h : pyStrip city ≠ "") :
    (get_weather env city).2 = [⟨wttrUrl city, 10⟩] := by
  cases hf : env.fetch (wttrUrl city) 10 with
  | raiseExc e => rw [get_weather_raise env city e h hf]
  | ok status body =>
      cases status with
      | none => rw [get_weather_status_none env city body h hf]
      | some s =>
          by_cases hs : s = 200
          · subst hs
            rw [get_weather_status_200 env city body h hf]
          · rw [get_weather_bad_status env city body s h hf hs]

/-- Draining a sequence whose prefix is non-final and whose next event is
final: the loop breaks at that event, having consumed the prefix plus the
final event and nothing after it. -/
theorem call_agent_async_first_final (pre : List Event) (e : Event) (rest : List Event)
    (hpre : ∀ x ∈ pre, x.is_final_response = false) (he : e.is_final_response = true) :
    call_agent_async (pre ++ e :: rest) = (finalEventText e, pre.length + 1) := by
  induction pre with
  | nil => simp [call_agent_async, he]
  | cons a as ih =>
      have ha : a.is_final_response = false := hpre a (by simp)
      have ih2 := ih (fun x hx => hpre x (by simp [hx]))
      simp [call_agent_async, ha, ih2]

/-- Draining a sequence with no final event consumes everything and keeps
the placeholder. -/
theorem call_agent_async_no_final (events : List Event)
    (h : ∀ x ∈ events, x.is_final_response = false) :
    call_agent_async events = (some noFinalResponseText, events.length) := by
  induction events with
  | nil => rfl
  | cons a as ih =>
      have ha : a.is_final_response = false := h a (by simp)
      have ih2 := ih (fun x hx => h x (by simp [hx]))
      simp [call_agent_async, ha, ih2]

/-- Substring containment is monotone in the pattern: if `p ++ q` occurs
in `l` then so does `p`. -/
theorem listContains_append_left (p q l : List Char)
    (h : listContains (p ++ q) l = true) : listContains p l = true := by
  induction l with
  | nil =>
      simp [listContains] at h ⊢
      exact h.1
  | cons c cs ih =>
      simp only [listContains, Bool.or_eq_true] at h ⊢
      cases h with
      | inl hp =>
          left
          rw [List.isPrefixOf_iff_prefix] at hp ⊢
          exact (List.prefix_append p q).trans hp
      | inr hr => exact .inr (ih hr)

/-- A string containing "RateLimitError" contains "RateLimit". -/
theorem strContains_RateLimit_of_RateLimitError (s : String)
    (h : strContains s "RateLimitError" = true) : strContains s "RateLimit" = true := by
  have : "RateLimitError".toList = "RateLimit".toList ++ "Error".toList := by decide
  unfold strContains at h ⊢
  rw [this] at h
  exact listContains_append_left _ _ _ h

/-! ## Concrete fixtures for witnesses and counterexamples -/

/-- A decoded body whose first `current_condition` element is an empty
dict: every field `get_weather` extracts with a default is missing. -/
def cOnlyData : Json := .obj [("current_condition", .arr [.obj []])]

/-- Environment: HTTP 200 whose body decodes to `cOnlyData`. -/
def cOnlyEnv : Env where
  fetch := fun _ _ => .ok (some 200) "body"
  jsonLoads := fun _ => .ok cOnlyData

/-- Environment: every request gets an HTTP 404 response. -/
def env404 : Env where
  fetch := fun _ _ => .ok (some 404) "irrelevant"
  jsonLoads := fun _ => .error "unused"

/-- Environment: the transport always raises (e.g. a URLError). -/
def envRaise : Env where
  fetch := fun _ _ => .raiseExc "URLError"
  jsonLoads := fun _ => .error "unused"

/-- Environment: HTTP 200 with a body that is not valid JSON. -/
def badJsonEnv : Env where
  fetch := fun _ _ => .ok (some 200) "not json"
  jsonLoads := fun _ => .error "Expecting value: line 1 column 1 (char 0)"

/-- Environment: HTTP 200 whose body decodes to a bare JSON string, so
`.get` raises during extraction. -/
def strDataEnv : Env where
  fetch := fun _ _ => .ok (some 200) "\x22nope\x22"
  jsonLoads := fun _ => .ok (.str "nope")

/-- A decoded body with all four extracted fields present. -/
def wttrData (t f hm d : String) : Json :=
  .obj [("current_condition", .arr [.obj
    [("temp_C", .str t),
     ("weatherDesc", .arr [.obj [("value", .str d)]]),
     ("humidity", .str hm),
     ("feelslike_C", .str f)]])]

/-- Environment: HTTP 200 whose body decodes to a full weather record. -/
def sunnyEnv : Env where
  fetch := fun _ _ => .ok (some 200) "body"
  jsonLoads := fun _ => .ok (wttrData "20" "18" "64" "Sunny")

/-! ## Claims -/

/-- C1: for every environment (transport behaviour and decoder behaviour)
and every input city, `get_weather` returns a dictionary whose `status`
key is `"error"` together with a string `error_message`, or whose
`status` key is `"success"`; being a total Lean function of the
environment and the city, it terminates and raises nothing past its
boundary — every failure is represented as an error value. -/
theorem get_weather_never_raises (env : Env) (city : String) :
    (dictGet (get_weather env city).1 "status" = some (.str "error") ∧
      ∃ m, dictGet (get_weather env city).1 "error_message" = some (.str m)) ∨
    dictGet (get_weather env city).1 "status" = some (.str "success") := by
  rcases get_weather_cases env city with ⟨m, hm⟩ | ⟨r, d, hd⟩
  · rw [hm]
    exact .inl ⟨rfl, m, rfl⟩
  · rw [hd]
    exact .inr rfl

/-- C2: a city that is empty or whitespace-only is rejected with the
fixed error dict, and the list of issued HTTP requests is empty — the
network is never touched. -/
theorem get_weather_blank_no_request (env : Env) (city : String)
    (h : pyStrip city = "") :
    get_weather env city = (errDict "City must be non-empty string.", []) ∧
    (get_weather env city).2 = [] := by
  refine ⟨get_weather_blank env city h, ?_⟩
  rw [get_weather_blank env city h]

/-- Witness for C2 at the whitespace-only city `"   "`. -/
theorem get_weather_blank_no_request_witness :
    get_weather cOnlyEnv "   " = (errDict "City must be non-empty string.", []) ∧
    (get_weather cOnlyEnv "   ").2 = [] :=
  get_weather_blank_no_request cOnlyEnv "   " (by decide)

/-- C3 counterexample: a decoded body in which every extracted field
(`temp_C`, `feelslike_C`, `humidity`, the `weatherDesc` value) is missing
from the first `current_condition` element, yet `get_weather` returns a
`"success"` dict whose report interpolates `None` for all of them — a
partial success report, not an error. -/
theorem get_weather_partial_report_counterexample :
    (get_weather cOnlyEnv "Paris").1 =
      successDict
        "Weather in Paris is None, temperature None°c (feels like None°c), humidity None%."
        cOnlyData ∧
    dictGet (get_weather cOnlyEnv "Paris").1 "status" = some (.str "success") :=
  ⟨rfl, rfl⟩

/-- C3 amended: after a successful fetch and decode, `get_weather`
returns the parse-failure error dict exactly when the extraction code
raises (e.g. `current_condition` missing, empty, or of the wrong shape),
embedding the exception text; when extraction completes it returns the
success dict — and extraction completes even when every defaulted field
is missing, interpolating `None` into the report. -/
theorem get_weather_extraction_amended (env : Env) (city body : String) (data : Json)
    (h : pyStrip city ≠ "")
    (hf : env.fetch (wttrUrl city) 10 = .ok (some 200) body)
    (hj : env.jsonLoads body = .ok data) :
    (∀ e, extractReport city data = .error e →
      (get_weather env city).1 = errDict ("Error parsing weather data: " ++ e ++ ".")) ∧
    (∀ r, extractReport city data = .ok r →
      (get_weather env city).1 = successDict r data) ∧
    extractReport city (.obj [("current_condition", .arr [.obj []])]) =
      .ok ("Weather in " ++ city ++
        " is None, temperature None°c (feels like None°c), humidity None%.") := by
  refine ⟨?_, ?_, ?_⟩
  · intro e hx
    rw [get_weather_status_200 env city body h hf,
      handleBody_extract_err env city body e data hj hx]
  · intro r hx
    rw [get_weather_status_200 env city body h hf,
      handleBody_ok env city body r data hj hx]
  · have h0 : extractReport city (.obj [("current_condition", .arr [.obj []])]) =
        .ok ("Weather in " ++ city ++ " is " ++ "None" ++ ", temperature " ++ "None" ++
          "°c (feels like " ++ "None" ++ "°c), humidity " ++ "None" ++ "%.") := rfl
    rw [h0]
    simp [String.append_assoc]

/-- Witness for the amended C3: a decoded body that is a bare string
makes `.get` raise `AttributeError`, and `get_weather` embeds it in the
parse-failure error dict. -/
theorem get_weather_extraction_amended_witness :
    (get_weather strDataEnv "Paris").1 =
      errDict ("Error parsing weather data: AttributeError: object has no attribute " ++
        "\x27" ++ "get" ++ "\x27" ++ ".") :=
  (get_weather_extraction_amended strDataEnv "Paris" "\x22nope\x22" (.str "nope")
    (by decide) rfl rfl).1 _ rfl

/-- C9: `get_weather` is a pure function of the environment (the external
HTTP and decoder state) and the city, so two calls with the same city
against an unchanged environment return equal results. -/
theorem get_weather_deterministic (env : Env) (city city2 : String)
    (h : city = city2) :
    get_weather env city = get_weather env city2 := by
  rw [h]

/-- Witness for C9 at a concrete city. -/
theorem get_weather_deterministic_witness :
    get_weather sunnyEnv "Nairobi" = get_weather sunnyEnv "Nairobi" :=
  get_weather_deterministic sunnyEnv "Nairobi" "Nairobi" rfl

/-- C6: on a non-blank city `get_weather` issues exactly one GET, to the
fixed templated wttr.in endpoint with the percent-encoded city and a
timeout of 10; a present non-200 status yields an error dict embedding
the status; an absent status falls through to body decoding just like a
200; a transport exception or a JSON-decode exception yields an error
dict embedding the underlying cause. -/
theorem get_weather_http_contract (env : Env) (city : String)
    (h : pyStrip city ≠ "") :
    (get_weather env city).2 =
      [⟨"https://wttr.in/" ++ pyQuote city ++ "?format=j1", 10⟩] ∧
    (∀ e, env.fetch (wttrUrl city) 10 = .raiseExc e →
      (get_weather env city).1 = errDict ("Error fetching weather data: " ++ e ++ ".")) ∧
    (∀ s body, env.fetch (wttrUrl city) 10 = .ok (some s) body → s ≠ 200 →
      (get_weather env city).1 = errDict ("Error fetching weather data: " ++ toString s ++ ".")) ∧
    (∀ body, env.fetch (wttrUrl city) 10 = .ok none body →
      (get_weather env city).1 = handleBody env city body) ∧
    (∀ body, env.fetch (wttrUrl city) 10 = .ok (some 200) body →
      (get_weather env city).1 = handleBody env city body) ∧
    (∀ status body e,
      env.fetch (wttrUrl city) 10 = .ok status body →
      (status = none ∨ status = some 200) →
      env.jsonLoads body = .error e →
      (get_weather env city).1 = errDict ("Error fetching weather data: " ++ e ++ ".")) := by
  refine ⟨get_weather_requests env city h, ?_, ?_, ?_, ?_, ?_⟩
  · intro e hf
    rw [get_weather_raise env city e h hf]
  · intro s body hf hs
    rw [get_weather_bad_status env city body s h hf hs]
  · intro body hf
    rw [get_weather_status_none env city body h hf]
  · intro body hf
    rw [get_weather_status_200 env city body h hf]
  · intro status body e hf hst hj
    rcases hst with h0 | h0
    · subst h0
      rw [get_weather_status_none env city body h hf,
        handleBody_decode_err env city body e hj]
    · subst h0
      rw [get_weather_status_200 env city body h hf,
        handleBody_decode_err env city body e hj]

/-- Witness for C6: a 404 response at the concrete city `"London"` and a
transport failure at the concrete city `"New York"` (whose URL contains
the percent-encoded space). -/
theorem get_weather_http_contract_witness :
    (get_weather env404 "London").1 = errDict "Error fetching weather data: 404." ∧
    (get_weather env404 "London").2 = [⟨"https://wttr.in/London?format=j1", 10⟩] ∧
    (get_weather envRaise "New York").1 = errDict "Error fetching weather data: URLError." ∧
    (get_weather envRaise "New York").2 =
      [⟨"https://wttr.in/New%20York?format=j1", 10⟩] ∧
    (get_weather badJsonEnv "London").1 =
      errDict "Error fetching weather data: Expecting value: line 1 column 1 (char 0)." := by
  refine ⟨?_, ?_, ?_, ?_, ?_⟩
  · exact (get_weather_http_contract env404 "London" (by decide)).2.2.1 404 "irrelevant"
      rfl (by decide)
  · have h := (get_weather_http_contract env404 "London" (by decide)).1
    rw [h]
    decide
  · exact (get_weather_http_contract envRaise "New York" (by decide)).2.1 "URLError" rfl
  · have h := (get_weather_http_contract envRaise "New York" (by decide)).1
    rw [h]
    decide
  · exact (get_weather_http_contract badJsonEnv "London" (by decide)).2.2.2.2.2
      (some 200) "not json" "Expecting value: line 1 column 1 (char 0)" rfl (.inr rfl) rfl

/-- C7: when the decoded body carries the four extracted fields,
`get_weather` returns the success dict whose one-line report interpolates
the city, the description (first `weatherDesc` value of the first
`current_condition` element), the temperature, the feels-like temperature
and the humidity, together with the raw decoded data; and every return
value of `get_weather` is the error dict (status/error_message) or the
success dict (status/report/data). -/
theorem get_weather_success_report_and_shape :
    (∀ (env : Env) (city t f hm d body : String),
      pyStrip city ≠ "" →
      env.fetch (wttrUrl city) 10 = .ok (some 200) body →
      env.jsonLoads body = .ok (wttrData t f hm d) →
      (get_weather env city).1 =
        successDict ("Weather in " ++ city ++ " is " ++ d ++ ", temperature " ++ t ++
          "°c (feels like " ++ f ++ "°c), humidity " ++ hm ++ "%.")
          (wttrData t f hm d)) ∧
    (∀ (env : Env) (city : String),
      (∃ m, (get_weather env city).1 = errDict m) ∨
      (∃ r dd, (get_weather env city).1 = successDict r dd)) := by
  constructor
  · intro env city t f hm d body h hf hj
    rw [get_weather_status_200 env city body h hf,
      handleBody_ok env city body
        ("Weather in " ++ city ++ " is " ++ d ++ ", temperature " ++ t ++
          "°c (feels like " ++ f ++ "°c), humidity " ++ hm ++ "%.")
        (wttrData t f hm d) hj (by rfl)]
  · exact get_weather_cases

/-- Witness for C7 at a fully populated concrete weather record. -/
theorem get_weather_success_report_and_shape_witness :
    (get_weather sunnyEnv "Nairobi").1 =
      successDict
        "Weather in Nairobi is Sunny, temperature 20°c (feels like 18°c), humidity 64%."
        (wttrData "20" "18" "64" "Sunny") := by
  have h := get_weather_success_report_and_shape.1 sunnyEnv "Nairobi" "20" "18" "64"
    "Sunny" "body" (by decide) rfl rfl
  rw [h]
  simp [successDict, String.append_assoc]

/-- A non-final event carrying nothing. -/
def nonFinalEvent : Event := ⟨false, none, none, none⟩

/-- A final event whose first content part carries text. -/
def finalTextEvent : Event := ⟨true, some ⟨[⟨some "Sunny, 25°C"⟩]⟩, none, none⟩

/-- A final event with no content but an escalation and an error
message. -/
def escalateEvent : Event := ⟨true, none, some ⟨some true⟩, some "quota exceeded"⟩

/-- A final event with an empty parts list, no escalation and no error
message. -/
def emptyFinalEvent : Event := ⟨true, some ⟨[]⟩, some ⟨some false⟩, none⟩

/-- C4: resolution policy of the turn.  For any prefix of non-final
events: (a) if the first final event has non-empty content parts the
result is the first part's text; (b) else if it carries the escalation
flag the result is the formatted escalation string, embedding the error
message or the default placeholder when the message is absent; (c) if no
event of the sequence is final the result is the fixed placeholder
"Agent did not produce a final response.". -/
theorem call_agent_async_resolution :
    (∀ (pre : List Event) (e : Event) (rest : List Event),
      (∀ x ∈ pre, x.is_final_response = false) → e.is_final_response = true →
      eventHasContentParts e = true →
      (call_agent_async (pre ++ e :: rest)).1 = firstPartText e) ∧
    (∀ (pre : List Event) (e : Event) (rest : List Event),
      (∀ x ∈ pre, x.is_final_response = false) → e.is_final_response = true →
      eventHasContentParts e = false → eventEscalates e = true →
      (call_agent_async (pre ++ e :: rest)).1 =
        some ("Agent escalated: " ++ escalationMessage e)) ∧
    (∀ events : List Event,
      (∀ x ∈ events, x.is_final_response = false) →
      (call_agent_async events).1 = some "Agent did not produce a final response.") := by
  refine ⟨?_, ?_, ?_⟩
  · intro pre e rest hpre he hc
    rw [call_agent_async_first_final pre e rest hpre he]
    simp [finalEventText, hc]
  · intro pre e rest hpre he hc ha
    rw [call_agent_async_first_final pre e rest hpre he]
    simp [finalEventText, hc, ha]
  · intro events hev
    rw [call_agent_async_no_final events hev]
    rfl

/-- Witness for C4: the three resolution outcomes at concrete event
sequences, including the default escalation placeholder for an absent
message. -/
theorem call_agent_async_resolution_witness :
    (call_agent_async [nonFinalEvent, finalTextEvent]).1 = some "Sunny, 25°C" ∧
    (call_agent_async [nonFinalEvent, escalateEvent]).1 =
      some "Agent escalated: quota exceeded" ∧
    (call_agent_async [Event.mk true none (some ⟨some true⟩) none]).1 =
      some "Agent escalated: No specific message." ∧
    (call_agent_async [nonFinalEvent, nonFinalEvent]).1 =
      some "Agent did not produce a final response." := by
  refine ⟨?_, ?_, ?_, ?_⟩
  · exact call_agent_async_resolution.1 [nonFinalEvent] finalTextEvent []
      (by simp [nonFinalEvent]) rfl rfl
  · exact call_agent_async_resolution.2.1 [nonFinalEvent] escalateEvent []
      (by simp [nonFinalEvent]) rfl rfl rfl
  · exact call_agent_async_resolution.2.1 [] (Event.mk true none (some ⟨some true⟩) none) []
      (by simp) rfl rfl rfl
  · exact call_agent_async_resolution.2.2 [nonFinalEvent, nonFinalEvent]
      (by simp [nonFinalEvent])

/-- C5: the loop stops consuming at the first final event: the result is
the same as if the sequence ended right after that event, and the number
of events consumed is the prefix length plus one — whatever follows the
final event is never requested.  In particular, when the second event is
final exactly two events are consumed. -/
theorem call_agent_async_stops_at_first_final (pre : List Event) (e : Event)
    (rest : List Event)
    (hpre : ∀ x ∈ pre, x.is_final_response = false) (he : e.is_final_response = true) :
    call_agent_async (pre ++ e :: rest) = call_agent_async (pre ++ [e]) ∧
    (call_agent_async (pre ++ e :: rest)).2 = pre.length + 1 := by
  rw [call_agent_async_first_final pre e rest hpre he,
    call_agent_async_first_final pre e [] hpre he]
  exact ⟨rfl, rfl⟩

/-- Witness for C5: with a non-final first event and a final second
event, the third event is never requested — two events are consumed and
the result equals that of the two-event sequence. -/
theorem call_agent_async_stops_witness :
    call_agent_async [nonFinalEvent, finalTextEvent, nonFinalEvent] =
      call_agent_async [nonFinalEvent, finalTextEvent] ∧
    (call_agent_async [nonFinalEvent, finalTextEvent, nonFinalEvent]).2 = 2 :=
  call_agent_async_stops_at_first_final [nonFinalEvent] finalTextEvent [nonFinalEvent]
    (by simp [nonFinalEvent]) rfl

/-- C10: a final event with neither non-empty content parts nor the
escalation flag leaves the placeholder untouched, so the turn resolves to
the same fixed text "Agent did not produce a final response." as a
sequence with no final event at all — the two situations are
indistinguishable in the returned text. -/
theorem call_agent_async_contentless_final (pre : List Event) (e : Event)
    (rest : List Event)
    (hpre : ∀ x ∈ pre, x.is_final_response = false) (he : e.is_final_response = true)
    (hc : eventHasContentParts e = false) (ha : eventEscalates e = false) :
    (call_agent_async (pre ++ e :: rest)).1 =
      some "Agent did not produce a final response." ∧
    (call_agent_async (pre ++ e :: rest)).1 = (call_agent_async pre).1 := by
  rw [call_agent_async_first_final pre e rest hpre he,
    call_agent_async_no_final pre hpre]
  constructor
  · simp [finalEventText, hc, ha, noFinalResponseText]
  · simp [finalEventText, hc, ha, noFinalResponseText]

/-- Witness for C10 at a concrete content-free, non-escalated final
event. -/
theorem call_agent_async_contentless_final_witness :
    (call_agent_async [nonFinalEvent, emptyFinalEvent, finalTextEvent]).1 =
      some "Agent did not produce a final response." ∧
    (call_agent_async [nonFinalEvent, emptyFinalEvent, finalTextEvent]).1 =
      (call_agent_async [nonFinalEvent]).1 :=
  call_agent_async_contentless_final [nonFinalEvent] emptyFinalEvent [finalTextEvent]
    (by simp [nonFinalEvent]) rfl rfl rfl

/-- C8: the heuristic classifier returns true for every exception whose
type name or string representation contains the substring "RateLimit" —
in particular for any exception whose type name contains
"RateLimitError" — regardless of whether `litellm` is importable; and it
returns false for a generic `ValueError("timeout")` (whose type name and
message avoid the substring and which is not a `litellm` rate-limit
instance). -/
theorem is_rate_limit_error_heuristic :
    (∀ (imp : Bool) (e : PyException),
      strContains e.typeName "RateLimit" = true ∨ strContains e.strRepr "RateLimit" = true →
      _is_rate_limit_error imp (some e) = true) ∧
    (∀ (imp : Bool) (e : PyException),
      strContains e.typeName "RateLimitError" = true →
      _is_rate_limit_error imp (some e) = true) ∧
    (∀ imp : Bool,
      _is_rate_limit_error imp (some ⟨"ValueError", "timeout", false⟩) = false) := by
  refine ⟨?_, ?_, ?_⟩
  · intro imp e h
    unfold _is_rate_limit_error
    rcases h with h | h <;> simp [h]
  · intro imp e h
    unfold _is_rate_limit_error
    simp [strContains_RateLimit_of_RateLimitError e.typeName h]
  · intro imp
    unfold _is_rate_limit_error
    simp
    decide

/-- Witness for C8 at a concrete `RateLimitError`-named exception and a
concrete `ValueError("timeout")`. -/
theorem is_rate_limit_error_heuristic_witness :
    _is_rate_limit_error false (some ⟨"RateLimitError", "rate limited", false⟩) = true ∧
    _is_rate_limit_error true (some ⟨"ValueError", "timeout", false⟩) = false :=
  ⟨is_rate_limit_error_heuristic.2.1 false ⟨"RateLimitError", "rate limited", false⟩
      (by decide),
   is_rate_limit_error_heuristic.2.2 true⟩
